import Mathlib

/-!
Shallow embedding of the OAuth core of the repository:
`backend/src/middleware/csrfProtection.js` (CSRF state registry and the
`/auth/instagram/callback` route appended to it) and
`backend/src/services/tokenStorage.js` (in-memory token store).

Modelling conventions:
- A JavaScript `Map` (insertion-ordered, unique keys) is an association list
  `List (String × α)`; `Map.set` updates the first matching entry in place or
  appends, `Map.get` finds the first matching entry, `Map.delete` removes it.
- Timestamps (`Date.now()`) are `Int` milliseconds, passed explicitly as `now`.
- JavaScript dynamic values that the code inspects with `typeof` or truthiness
  are embedded as `JVal`; string truthiness (`""` is falsy) is modelled
  point-wise where the code relies on it (`||` defaulting, `if (!x)` guards).
- `uuidv4()` is nondeterministic; the fresh token is an explicit argument.
-/

namespace IGAuth

/-- JavaScript dynamic value, restricted to the shapes the embedded code
inspects: `undefined`, `null`, a number, a string, or some other object.
Numbers are embedded as `Int` (the values flowing through `expiresIn`
are integral seconds). -/
inductive JVal where
  | undefined : JVal
  | jnull : JVal
  | num : Int → JVal
  | str : String → JVal
  | obj : JVal
deriving DecidableEq

/-- Lookup in a JS `Map` modelled as an association list (`Map.get`). -/
def mapGet? {α : Type} : List (String × α) → String → Option α
  | [], _ => none
  | (k', v) :: rest, k => if k' = k then some v else mapGet? rest k

/-- Insert-or-update in a JS `Map` (`Map.set`): updates the first entry with
the key in place, otherwise appends at the end. -/
def mapSet {α : Type} : List (String × α) → String → α → List (String × α)
  | [], k, v => [(k, v)]
  | (k', v') :: rest, k, v =>
    if k' = k then (k, v) :: rest else (k', v') :: mapSet rest k v

/-- Deletion from a JS `Map` (`Map.delete`): removes the first entry with the
key (a JS `Map` holds at most one). -/
def mapDelete {α : Type} : List (String × α) → String → List (String × α)
  | [], _ => []
  | (k', v') :: rest, k => if k' = k then rest else (k', v') :: mapDelete rest k

/-- Number of entries of the association list carrying a given key. -/
def countKey {α : Type} : List (String × α) → String → Nat
  | [], _ => 0
  | (k', _) :: rest, k => (if k' = k then 1 else 0) + countKey rest k

/-- Keys of the association list, in order. -/
def keysOf {α : Type} (m : List (String × α)) : List String :=
  m.map Prod.fst

/- ---------------------------------------------------------------------------
CSRF State Registry (csrfProtection.js lines 10-103)
--------------------------------------------------------------------------- -/

/-- The registry `stateStore`: state string mapped to its issuance timestamp. -/
abbrev StateStore := List (String × Int)

/-- State expiration time in milliseconds (10 minutes), csrfProtection.js line 15. -/
def STATE_EXPIRATION_MS : Int := 10 * 60 * 1000

/-- Embedding of `generateState` (csrfProtection.js lines 21-29). The fresh
UUID v4 and the current time are explicit arguments; the function records the
token with its timestamp and returns it. -/
def generateState (store : StateStore) (freshToken : String) (now : Int) :
    String × StateStore :=
  (freshToken, mapSet store freshToken now)

/-- Embedding of `validateState` (csrfProtection.js lines 36-61). Returns the
boolean result paired with the registry after the call. The `if (!state)` and
`if (!timestamp)` guards are JS truthiness checks: the empty string and the
number 0 are falsy. -/
def validateState (store : StateStore) (state : String) (now : Int) :
    Bool × StateStore :=
  if state = "" then (false, store)
  else
    match mapGet? store state with
    | none => (false, store)
    | some timestamp =>
      if timestamp = 0 then (false, store)
      else if now - timestamp > STATE_EXPIRATION_MS then
        (false, mapDelete store state)
      else
        (true, mapDelete store state)

/-- Embedding of `cleanupExpiredStates` (csrfProtection.js lines 67-82):
removes every entry older than the expiration window. -/
def cleanupExpiredStates (store : StateStore) (now : Int) : StateStore :=
  store.filter (fun p => decide (now - p.2 ≤ STATE_EXPIRATION_MS))

/- ---------------------------------------------------------------------------
Token Store (tokenStorage.js)
--------------------------------------------------------------------------- -/

/-- Credential record as stored by `saveToken` (tokenStorage.js lines 33-43).
Fields the route may pass as JS `null` are `Option`s. -/
structure TokenRecord where
  accessToken : String
  tokenType : String
  expiresAt : Int
  permissions : List String
  instagramUserId : String
  instagramAccountId : Option String
  instagramUsername : Option String
  pageAccessToken : Option String
  createdAt : Int
deriving DecidableEq

/-- The `tokenStore` map: user id mapped to its credential record. -/
abbrev TokenStore := List (String × TokenRecord)

/-- Input object passed to `saveToken`. `expiresIn` is kept fully dynamic
(`JVal`) because the code checks `typeof tokenData.expiresIn === 'number'`;
the other optional fields are string-or-absent, with JS falsiness of `""`
handled in the defaulting helpers below. -/
structure TokenDataInput where
  accessToken : String
  tokenType : Option String
  expiresIn : JVal
  permissions : Option (List String)
  instagramUserId : String
  instagramAccountId : Option String
  instagramUsername : Option String
  pageAccessToken : Option String
deriving DecidableEq

/-- JS `x || 'bearer'` on a string-or-absent value: absent, `null` and `""`
are falsy. -/
def orBearer (v : Option String) : String :=
  match v with
  | none => "bearer"
  | some s => if s = "" then "bearer" else s

/-- JS `x || null` on a string-or-absent value: `""` collapses to `null`. -/
def orNullStr (v : Option String) : Option String :=
  match v with
  | none => none
  | some s => if s = "" then none else some s

/-- Sixty days in seconds, the default validity window of
tokenStorage.js line 29 (`60 * 24 * 60 * 60`). -/
def SIXTY_DAYS_SECONDS : Int := 60 * 24 * 60 * 60

/-- The guard of tokenStorage.js lines 27-29:
`typeof tokenData.expiresIn === 'number' && tokenData.expiresIn > 0`. -/
def isPositiveNumber : JVal → Bool
  | .num n => decide (0 < n)
  | _ => false

/-- The validity duration in seconds actually used by `saveToken`
(tokenStorage.js lines 27-29). -/
def expiresInSecondsOf (v : JVal) : Int :=
  match v with
  | .num n => if 0 < n then n else SIXTY_DAYS_SECONDS
  | _ => SIXTY_DAYS_SECONDS

/-- The record object built by `saveToken` (tokenStorage.js lines 33-43). -/
def mkRecord (d : TokenDataInput) (now : Int) : TokenRecord :=
  { accessToken := d.accessToken
  , tokenType := orBearer d.tokenType
  , expiresAt := now + expiresInSecondsOf d.expiresIn * 1000
  , permissions := d.permissions.getD []
  , instagramUserId := d.instagramUserId
  , instagramAccountId := orNullStr d.instagramAccountId
  , instagramUsername := orNullStr d.instagramUsername
  , pageAccessToken := orNullStr d.pageAccessToken
  , createdAt := now }

/-- Embedding of `saveToken` (tokenStorage.js lines 24-47): stores the record
under `userId` (JS `Map.set`, full overwrite) and returns it (the JS code
returns `tokenStore.get(userId)`, which is exactly the record just set). -/
def saveToken (store : TokenStore) (userId : String) (d : TokenDataInput)
    (now : Int) : TokenRecord × TokenStore :=
  let r := mkRecord d now
  (r, mapSet store userId r)

/-- Embedding of `getToken` (tokenStorage.js lines 54-69): absent gives
`none`; an expired record (`Date.now() > expiresAt`, strict) is deleted and
`none` is returned; otherwise the record is returned unchanged. -/
def getToken (store : TokenStore) (userId : String) (now : Int) :
    Option TokenRecord × TokenStore :=
  match mapGet? store userId with
  | none => (none, store)
  | some r =>
    if now > r.expiresAt then (none, mapDelete store userId)
    else (some r, store)

/-- Embedding of `deleteToken` (tokenStorage.js lines 76-82): JS `Map.delete`
returns whether an entry was removed. -/
def deleteToken (store : TokenStore) (userId : String) : Bool × TokenStore :=
  ((mapGet? store userId).isSome, mapDelete store userId)

/-- Entry of the `getAllTokens` diagnostic listing (tokenStorage.js
lines 88-98). -/
structure TokenListEntry where
  userId : String
  record : TokenRecord
  isExpired : Bool
deriving DecidableEq

/-- Embedding of `getAllTokens` (tokenStorage.js lines 88-98): every stored
record annotated with a computed `isExpired` flag, with no deletion side
effect. -/
def getAllTokens (store : TokenStore) (now : Int) : List TokenListEntry :=
  store.map (fun p =>
    { userId := p.1, record := p.2, isExpired := decide (now > p.2.expiresAt) })

/- ---------------------------------------------------------------------------
OAuth callback route, GET /auth/instagram/callback
(csrfProtection.js lines 259-358 of the combined middleware/routes file)
--------------------------------------------------------------------------- -/

/-- Query string of the callback request; each parameter is a string when
present. -/
structure CallbackQuery where
  code : Option String
  state : Option String
  error : Option String
  error_reason : Option String
  error_description : Option String
deriving DecidableEq

/-- JS truthiness of a string-valued query parameter: absent and `""` are
falsy. -/
def truthy : Option String → Bool
  | none => false
  | some s => s != ""

/-- JS `a || b || d` on two string-or-absent values and a string default. -/
def firstTruthy (a b : Option String) (d : String) : String :=
  match orNullStr a with
  | some s => s
  | none =>
    match orNullStr b with
    | some s => s
    | none => d

/-- Token response of the Facebook token endpoint
(`{access_token, token_type, expires_in}`). -/
structure TokenResponse where
  access_token : String
  token_type : Option String
  expires_in : JVal
deriving DecidableEq

/-- Response of the `/me` identity lookup. -/
structure UserInfo where
  id : String
  name : Option String
deriving DecidableEq

/-- The optional `instagram_business_account` object carried by a page. -/
structure BusinessAccountRef where
  id : String
deriving DecidableEq

/-- A Facebook page entry of the `/me/accounts` response. -/
structure Page where
  access_token : String
  instagram_business_account : Option BusinessAccountRef
deriving DecidableEq

/-- Response of the `getInstagramBusinessAccount` detail lookup. -/
structure IgAccountInfo where
  username : String
deriving DecidableEq

/-- Responses of the four-plus-one outbound network calls the callback makes,
supplied as an environment (the calls themselves are sequential blocking HTTP
requests; a throwing call aborts the flow before `saveToken`, which no claim
below depends on, so responses are modelled as values). -/
structure Env where
  shortLived : TokenResponse
  longLived : TokenResponse
  userInfo : UserInfo
  pages : List Page
  igAccount : String → IgAccountInfo

/-- Names of the outbound network calls the callback can attempt. -/
inductive NetCall where
  | exchangeCodeForToken : NetCall
  | exchangeForLongLivedToken : NetCall
  | getInstagramUser : NetCall
  | getFacebookPages : NetCall
  | getInstagramBusinessAccount : NetCall
deriving DecidableEq

/-- User-facing outcome of the callback: a redirect to `error.html` with a
message, or a redirect to `success.html` carrying the user id, the displayed
username and the displayed account id. -/
inductive Outcome where
  | errorRedirect : String → Outcome
  | successRedirect : String → String → String → Outcome
deriving DecidableEq

/-- Result of one callback handling: the redirect, both stores afterward, and
the outbound network calls attempted, in order. -/
structure CallbackResult where
  outcome : Outcome
  stateStore : StateStore
  tokenStore : TokenStore
  calls : List NetCall
deriving DecidableEq

/-- The `for (const page of pages)` loop with `break`
(csrfProtection.js lines 309-324): first page whose
`instagram_business_account` is truthy, together with that account object. -/
def findLinkedPage : List Page → Option (Page × BusinessAccountRef)
  | [] => none
  | p :: rest =>
    match p.instagram_business_account with
    | some ba => some (p, ba)
    | none => findLinkedPage rest

/-- The `tokenData` object the route passes to `saveToken`
(csrfProtection.js lines 332-341), as determined by the network responses.
When a linked page is found, `instagramAccountId`, `instagramUsername` and
`pageAccessToken` are set from it; otherwise they stay `null`. -/
def flowInput (env : Env) : TokenDataInput :=
  let base : TokenDataInput :=
    { accessToken := env.longLived.access_token
    , tokenType := some (orBearer env.longLived.token_type)
    , expiresIn := env.longLived.expires_in
    , permissions := some []
    , instagramUserId := env.userInfo.id
    , instagramAccountId := none
    , instagramUsername := none
    , pageAccessToken := none }
  match findLinkedPage env.pages with
  | some (p, ba) =>
    { base with
      instagramAccountId := some ba.id
    , instagramUsername := some ((env.igAccount ba.id).username)
    , pageAccessToken := some p.access_token }
  | none => base

/-- The credential record the successful flow stores. -/
def flowRecord (env : Env) (now : Int) : TokenRecord :=
  mkRecord (flowInput env) now

/-- The network calls the post-validation flow attempts, in order: code
exchange, long-lived upgrade, identity lookup, page lookup, and the business
account detail lookup when a linked page is found. -/
def flowCalls (env : Env) : List NetCall :=
  [NetCall.exchangeCodeForToken, NetCall.exchangeForLongLivedToken,
   NetCall.getInstagramUser, NetCall.getFacebookPages]
    ++ (match findLinkedPage env.pages with
        | some _ => [NetCall.getInstagramBusinessAccount]
        | none => [])

/-- The part of the callback after successful state validation
(csrfProtection.js lines 282-352): performs the network calls, stores the
record via `saveToken`, and redirects to `success.html` with
`instagramUsername || 'Not connected'` and `instagramAccountId || 'none'`. -/
def completeFlow (env : Env) (tstore : TokenStore) (now : Int) :
    Outcome × TokenStore × List NetCall :=
  let userId := env.userInfo.id
  let d := flowInput env
  let saved := saveToken tstore userId d now
  let shownUsername :=
    match orNullStr d.instagramUsername with
    | some s => s
    | none => "Not connected"
  let shownAccountId :=
    match orNullStr d.instagramAccountId with
    | some s => s
    | none => "none"
  (Outcome.successRedirect userId shownUsername shownAccountId,
   saved.2, flowCalls env)

/-- Embedding of the `GET /auth/instagram/callback` handler
(csrfProtection.js lines 259-358): the `error` branch, the
missing-`code`/`state` branch, the CSRF validation branch, and the
post-validation flow. -/
def handleCallback (q : CallbackQuery) (env : Env) (sstore : StateStore)
    (tstore : TokenStore) (now : Int) : CallbackResult :=
  if truthy q.error then
    { outcome := Outcome.errorRedirect
        (firstTruthy q.error_description q.error_reason "Authorization failed")
    , stateStore := sstore, tokenStore := tstore, calls := [] }
  else if !truthy q.code || !truthy q.state then
    { outcome := Outcome.errorRedirect "Invalid callback parameters"
    , stateStore := sstore, tokenStore := tstore, calls := [] }
  else
    let v := validateState sstore (q.state.getD "") now
    if v.1 then
      let c := completeFlow env tstore now
      { outcome := c.1, stateStore := v.2, tokenStore := c.2.1, calls := c.2.2 }
    else
      { outcome := Outcome.errorRedirect "Security validation failed"
      , stateStore := v.2, tokenStore := tstore, calls := [] }

/-- Well-formedness of the upstream page list, as the external interface
provides it: page access tokens and linked business-account ids are nonempty
opaque identifiers. -/
def pageWF (p : Page) : Bool :=
  (p.access_token != "") &&
    (match p.instagram_business_account with
     | some ba => ba.id != ""
     | none => true)

/-- Well-formedness of the network environment: every page is well-formed. -/
def envWF (env : Env) : Bool :=
  env.pages.all pageWF

/- ---------------------------------------------------------------------------
General lemmas about the JS Map model
--------------------------------------------------------------------------- -/

theorem mapGet_mapSet_self {α : Type} (m : List (String × α)) (k : String)
    (v : α) : mapGet? (mapSet m k v) k = some v := by
  induction m with
  | nil => simp [mapSet, mapGet?]
  | cons p rest ih =>
    obtain ⟨a, b⟩ := p
    by_cases h : a = k
    · subst h
      simp [mapSet, mapGet?]
    · simp [mapSet, mapGet?, h, ih]

theorem mapGet_eq_none_of_not_mem {α : Type} (m : List (String × α))
    (k : String) (h : k ∉ keysOf m) : mapGet? m k = none := by
  induction m with
  | nil => simp [mapGet?]
  | cons p rest ih =>
    obtain ⟨a, b⟩ := p
    simp only [keysOf, List.map_cons, List.mem_cons, not_or] at h
    have ha : ¬ a = k := fun hh => h.1 hh.symm
    simp only [mapGet?, if_neg ha]
    exact ih (by simpa [keysOf] using h.2)

theorem countKey_eq_zero_of_not_mem {α : Type} (m : List (String × α))
    (k : String) (h : k ∉ keysOf m) : countKey m k = 0 := by
  induction m with
  | nil => simp [countKey]
  | cons p rest ih =>
    obtain ⟨a, b⟩ := p
    simp only [keysOf, List.map_cons, List.mem_cons, not_or] at h
    have ha : ¬ a = k := fun hh => h.1 hh.symm
    simp only [countKey, if_neg ha]
    simpa using ih (by simpa [keysOf] using h.2)

theorem mem_keysOf_mapSet {α : Type} (m : List (String × α)) (k x : String)
    (v : α) (h : x ∈ keysOf (mapSet m k v)) : x = k ∨ x ∈ keysOf m := by
  induction m with
  | nil => simpa [mapSet, keysOf] using h
  | cons p rest ih =>
    obtain ⟨a, b⟩ := p
    by_cases hk : a = k
    · subst hk
      simpa [mapSet, keysOf] using h
    · simp only [mapSet, if_neg hk, keysOf, List.map_cons, List.mem_cons] at h
      rcases h with h | h
      · exact Or.inr (by simp [keysOf, h])
      · rcases ih (by simpa [keysOf] using h) with h' | h'
        · exact Or.inl h'
        · exact Or.inr (by simp [keysOf]; right; simpa [keysOf] using h')

theorem keysOf_mapSet_nodup {α : Type} (m : List (String × α)) (k : String)
    (v : α) (h : (keysOf m).Nodup) : (keysOf (mapSet m k v)).Nodup := by
  induction m with
  | nil => simp [mapSet, keysOf]
  | cons p rest ih =>
    obtain ⟨a, b⟩ := p
    simp only [keysOf, List.map_cons, List.nodup_cons] at h
    by_cases hk : a = k
    · subst hk
      have hset : mapSet ((a, b) :: rest) a v = (a, v) :: rest := by
        simp [mapSet]
      rw [hset]
      simp only [keysOf, List.map_cons, List.nodup_cons]
      exact ⟨by simpa [keysOf] using h.1, by simpa [keysOf] using h.2⟩
    · simp only [mapSet, if_neg hk, keysOf, List.map_cons, List.nodup_cons]
      refine ⟨?_, by simpa [keysOf] using ih (by simpa [keysOf] using h.2)⟩
      intro hmem
      rcases mem_keysOf_mapSet rest k a v (by simpa [keysOf] using hmem) with
        h' | h'
      · exact hk h'
      · exact h.1 (by simpa [keysOf] using h')

theorem mapGet_mapDelete_self {α : Type} (m : List (String × α)) (k : String)
    (h : (keysOf m).Nodup) : mapGet? (mapDelete m k) k = none := by
  induction m with
  | nil => simp [mapDelete, mapGet?]
  | cons p rest ih =>
    obtain ⟨a, b⟩ := p
    simp only [keysOf, List.map_cons, List.nodup_cons] at h
    by_cases hk : a = k
    · subst hk
      simp only [mapDelete, if_pos rfl]
      exact mapGet_eq_none_of_not_mem rest a (by simpa [keysOf] using h.1)
    · simp only [mapDelete, if_neg hk, mapGet?, if_neg hk]
      exact ih (by simpa [keysOf] using h.2)

theorem mapSet_mapSet_self {α : Type} (m : List (String × α)) (k : String)
    (v1 v2 : α) : mapSet (mapSet m k v1) k v2 = mapSet m k v2 := by
  induction m with
  | nil => simp [mapSet]
  | cons p rest ih =>
    obtain ⟨a, b⟩ := p
    by_cases hk : a = k
    · subst hk
      simp [mapSet]
    · simp [mapSet, hk, ih]

theorem countKey_le_one_of_nodup {α : Type} (m : List (String × α))
    (k : String) (h : (keysOf m).Nodup) : countKey m k ≤ 1 := by
  induction m with
  | nil => simp [countKey]
  | cons p rest ih =>
    obtain ⟨a, b⟩ := p
    simp only [keysOf, List.map_cons, List.nodup_cons] at h
    by_cases hk : a = k
    · subst hk
      have h0 : countKey rest a = 0 :=
        countKey_eq_zero_of_not_mem rest a (by simpa [keysOf] using h.1)
      simp [countKey, h0]
    · simp only [countKey, if_neg hk]
      simpa using ih (by simpa [keysOf] using h.2)

theorem countKey_mapSet_self {α : Type} (m : List (String × α)) (k : String)
    (v : α) (h : countKey m k ≤ 1) : countKey (mapSet m k v) k = 1 := by
  induction m with
  | nil => simp [mapSet, countKey]
  | cons p rest ih =>
    obtain ⟨a, b⟩ := p
    by_cases hk : a = k
    · subst hk
      simp [countKey] at h
      simp [mapSet, countKey]
      omega
    · simp only [countKey, if_neg hk] at h
      simp only [mapSet, if_neg hk, countKey, if_neg hk]
      simpa using ih (by omega)

theorem fst_ne_of_mem_mapDelete {α : Type} (m : List (String × α))
    (k : String) (h : (keysOf m).Nodup) :
    ∀ p ∈ mapDelete m k, p.1 ≠ k := by
  induction m with
  | nil => simp [mapDelete]
  | cons q rest ih =>
    obtain ⟨a, b⟩ := q
    simp only [keysOf, List.map_cons, List.nodup_cons] at h
    by_cases hk : a = k
    · subst hk
      intro p hp hpk
      simp only [mapDelete, if_pos rfl] at hp
      exact h.1 (hpk ▸ List.mem_map_of_mem Prod.fst hp)
    · intro p hp hpk
      simp only [mapDelete, if_neg hk, List.mem_cons] at hp
      rcases hp with rfl | hp
      · exact hk hpk
      · exact ih (by simpa [keysOf] using h.2) p hp hpk

theorem findLinkedPage_spec (l : List Page) (p : Page)
    (ba : BusinessAccountRef) (h : findLinkedPage l = some (p, ba)) :
    p ∈ l ∧ p.instagram_business_account = some ba := by
  induction l with
  | nil => simp [findLinkedPage] at h
  | cons q rest ih =>
    cases hba : q.instagram_business_account with
    | some ba' =>
      simp only [findLinkedPage, hba, Option.some.injEq, Prod.mk.injEq] at h
      obtain ⟨rfl, rfl⟩ := h
      exact ⟨List.mem_cons_self q rest, hba⟩
    | none =>
      simp only [findLinkedPage, hba] at h
      obtain ⟨hmem, hfield⟩ := ih h
      exact ⟨List.mem_cons_of_mem q hmem, hfield⟩

theorem expiresInSecondsOf_pos (v : JVal) : 0 < expiresInSecondsOf v := by
  cases v with
  | num n =>
    by_cases h : 0 < n
    · simp [expiresInSecondsOf, h]
    · simp [expiresInSecondsOf, h, SIXTY_DAYS_SECONDS]
  | undefined => simp [expiresInSecondsOf, SIXTY_DAYS_SECONDS]
  | jnull => simp [expiresInSecondsOf, SIXTY_DAYS_SECONDS]
  | str s => simp [expiresInSecondsOf, SIXTY_DAYS_SECONDS]
  | obj => simp [expiresInSecondsOf, SIXTY_DAYS_SECONDS]

/- ---------------------------------------------------------------------------
Claim theorems: CSRF State Registry
--------------------------------------------------------------------------- -/

/-- C1: for every token issued by `generateState`, an immediate
`validateState` with that token returns true, and a second immediate
`validateState` with the same token returns false — validation is consuming,
so replay with the token fails after the first successful validation.
Hypotheses reflect the real program: the registry keys are unique (a JS `Map`
guarantees this), the issued UUID v4 is nonempty, and `Date.now()` is
nonzero. -/
theorem C1_issue_validate_consumes (store : StateStore) (t : String)
    (now : Int) (hnodup : (keysOf store).Nodup) (ht : t ≠ "")
    (hnz : now ≠ 0) :
    (validateState (generateState store t now).2
      (generateState store t now).1 now).1 = true
    ∧ (validateState
        (validateState (generateState store t now).2
          (generateState store t now).1 now).2
        (generateState store t now).1 now).1 = false := by
  have hfst : (generateState store t now).1 = t := rfl
  have hsnd : (generateState store t now).2 = mapSet store t now := rfl
  rw [hfst, hsnd]
  have hget : mapGet? (mapSet store t now) t = some now :=
    mapGet_mapSet_self store t now
  have hv1 : validateState (mapSet store t now) t now
      = (true, mapDelete (mapSet store t now) t) := by
    unfold validateState
    rw [if_neg ht, hget]
    simp [hnz, STATE_EXPIRATION_MS]
  rw [hv1]
  refine ⟨rfl, ?_⟩
  have hnd2 : (keysOf (mapSet store t now)).Nodup :=
    keysOf_mapSet_nodup store t now hnodup
  have hnone : mapGet? (mapDelete (mapSet store t now) t) t = none :=
    mapGet_mapDelete_self (mapSet store t now) t hnd2
  unfold validateState
  rw [if_neg ht, hnone]

/-- Witness for C1 at a concrete issuance: empty registry, token `"tok"`,
clock reading 1000. -/
theorem C1_issue_validate_consumes_witness :
    (validateState (generateState [] "tok" 1000).2
      (generateState [] "tok" 1000).1 1000).1 = true
    ∧ (validateState
        (validateState (generateState [] "tok" 1000).2
          (generateState [] "tok" 1000).1 1000).2
        (generateState [] "tok" 1000).1 1000).1 = false :=
  C1_issue_validate_consumes [] "tok" 1000 (by simp [keysOf])
    (by decide) (by decide)

/-- C4: for a token present in the registry whose validity window has elapsed
(`now - issuedAt > STATE_EXPIRATION_MS`), `validateState` returns false and
the entry is absent afterward — the expired path also deletes, so a stale
token never lingers after a validation attempt. -/
theorem C4_expired_validate_deletes (store : StateStore) (t : String)
    (ts now : Int) (hnodup : (keysOf store).Nodup) (ht : t ≠ "")
    (hts : ts ≠ 0) (hfound : mapGet? store t = some ts)
    (hexp : now - ts > STATE_EXPIRATION_MS) :
    (validateState store t now).1 = false
    ∧ mapGet? (validateState store t now).2 t = none := by
  have hv : validateState store t now = (false, mapDelete store t) := by
    unfold validateState
    rw [if_neg ht, hfound]
    simp [hts, hexp]
  rw [hv]
  exact ⟨rfl, mapGet_mapDelete_self store t hnodup⟩

/-- Witness for C4: a registry holding `"s1"` issued at time 1000, validated
600001 ms later (one past the 10-minute window). -/
theorem C4_expired_validate_deletes_witness :
    (validateState [("s1", 1000)] "s1" 601001).1 = false
    ∧ mapGet? (validateState [("s1", 1000)] "s1" 601001).2 "s1" = none :=
  C4_expired_validate_deletes [("s1", 1000)] "s1" 1000 601001
    (by simp [keysOf]) (by decide) (by decide) (by decide) (by decide)

/-- C9: `validateState` is total and rejecting on bad inputs — the empty
token always returns false, and any token absent from the registry (such as
one never issued, e.g. `"unknown"`) returns false; no case throws, since the
operation is a total function. -/
theorem C9_validate_total_on_bad_tokens (store : StateStore) (tok : String)
    (now : Int) (hunknown : mapGet? store tok = none) :
    (validateState store "" now).1 = false
    ∧ (validateState store tok now).1 = false := by
  constructor
  · simp [validateState]
  · by_cases htok : tok = ""
    · simp [validateState, htok]
    · unfold validateState
      rw [if_neg htok, hunknown]

/-- Witness for C9: the empty registry with the literal tokens `""` and
`"unknown"` of the claim. -/
theorem C9_validate_total_on_bad_tokens_witness :
    (validateState [] "" 0).1 = false
    ∧ (validateState [] "unknown" 0).1 = false :=
  C9_validate_total_on_bad_tokens [] "unknown" 0 (by simp [mapGet?])

/- ---------------------------------------------------------------------------
Claim theorems: Token Store
--------------------------------------------------------------------------- -/

/-- C3: `saveToken` followed immediately by `getToken` returns exactly the
record the save stored (round-trip), and that record's `expiresAt` is the
save time plus the supplied validity duration in seconds (as milliseconds),
falling back to 60 days when the duration is missing or non-positive. -/
theorem C3_save_get_roundtrip (store : TokenStore) (u : String)
    (d : TokenDataInput) (now : Int) :
    (getToken (saveToken store u d now).2 u now).1
      = some (saveToken store u d now).1
    ∧ (saveToken store u d now).1.expiresAt
      = now + expiresInSecondsOf d.expiresIn * 1000
    ∧ (∀ n : Int, d.expiresIn = JVal.num n → 0 < n →
        (saveToken store u d now).1.expiresAt = now + n * 1000)
    ∧ (∀ n : Int, d.expiresIn = JVal.num n → n ≤ 0 →
        (saveToken store u d now).1.expiresAt
          = now + SIXTY_DAYS_SECONDS * 1000)
    ∧ (d.expiresIn = JVal.undefined →
        (saveToken store u d now).1.expiresAt
          = now + SIXTY_DAYS_SECONDS * 1000) := by
  refine ⟨?_, rfl, ?_, ?_, ?_⟩
  · show (getToken (mapSet store u (mkRecord d now)) u now).1
        = some (mkRecord d now)
    have hget : mapGet? (mapSet store u (mkRecord d now)) u
        = some (mkRecord d now) := mapGet_mapSet_self store u (mkRecord d now)
    have hpos : 0 < expiresInSecondsOf d.expiresIn :=
      expiresInSecondsOf_pos d.expiresIn
    have hne : ¬ now > (mkRecord d now).expiresAt := by
      show ¬ now > now + expiresInSecondsOf d.expiresIn * 1000
      omega
    unfold getToken
    rw [hget]
    simp [hne]
  · intro n hn hp
    show now + expiresInSecondsOf d.expiresIn * 1000 = now + n * 1000
    rw [hn]
    simp [expiresInSecondsOf, hp]
  · intro n hn hp
    show now + expiresInSecondsOf d.expiresIn * 1000
        = now + SIXTY_DAYS_SECONDS * 1000
    rw [hn]
    have : ¬ 0 < n := by omega
    simp [expiresInSecondsOf, this]
  · intro hn
    show now + expiresInSecondsOf d.expiresIn * 1000
        = now + SIXTY_DAYS_SECONDS * 1000
    rw [hn]
    simp [expiresInSecondsOf]

/-- Sample `saveToken` input used by the C3 witness: a one-hour validity
window. -/
def sampleInputC3 : TokenDataInput :=
  { accessToken := "A", tokenType := some "bearer"
  , expiresIn := JVal.num 3600, permissions := some ["instagram_basic"]
  , instagramUserId := "u1", instagramAccountId := some "ig1"
  , instagramUsername := some "handle", pageAccessToken := some "pat1" }

/-- Witness for C3 at a concrete save: round-trip succeeds and the positive
supplied duration of 3600 s is used. -/
theorem C3_save_get_roundtrip_witness :
    (getToken (saveToken [] "u1" sampleInputC3 5000).2 "u1" 5000).1
      = some (saveToken [] "u1" sampleInputC3 5000).1
    ∧ (saveToken [] "u1" sampleInputC3 5000).1.expiresAt
      = 5000 + 3600 * 1000 :=
  ⟨(C3_save_get_roundtrip [] "u1" sampleInputC3 5000).1,
   (C3_save_get_roundtrip [] "u1" sampleInputC3 5000).2.2.1 3600 rfl
     (by decide)⟩

/-- C5: `getToken` on a record whose `expiresAt` has strictly passed returns
`none` and deletes the record, so a subsequent `getAllTokens` no longer lists
that user. -/
theorem C5_lazy_expiry_on_get (store : TokenStore) (u : String)
    (r : TokenRecord) (now now2 : Int) (hnodup : (keysOf store).Nodup)
    (hfound : mapGet? store u = some r) (hexp : now > r.expiresAt) :
    (getToken store u now).1 = none
    ∧ mapGet? (getToken store u now).2 u = none
    ∧ (getAllTokens (getToken store u now).2 now2).all
        (fun e => e.userId != u) = true := by
  have hg : getToken store u now = (none, mapDelete store u) := by
    unfold getToken
    rw [hfound]
    simp [hexp]
  rw [hg]
  refine ⟨rfl, mapGet_mapDelete_self store u hnodup, ?_⟩
  have hall : ∀ p ∈ mapDelete store u, p.1 ≠ u :=
    fst_ne_of_mem_mapDelete store u hnodup
  rw [List.all_eq_true]
  intro e he
  simp only [getAllTokens, List.mem_map] at he
  obtain ⟨p, hp, rfl⟩ := he
  simpa using hall p hp

/-- Expired credential record used by the C5 witness. -/
def expiredRecordC5 : TokenRecord :=
  { accessToken := "A", tokenType := "bearer", expiresAt := 10
  , permissions := [], instagramUserId := "u1", instagramAccountId := none
  , instagramUsername := none, pageAccessToken := none, createdAt := 1 }

/-- Witness for C5: a store holding one record that expired at time 10, read
at time 2000, then listed at time 3000. -/
theorem C5_lazy_expiry_on_get_witness :
    (getToken [("u1", expiredRecordC5)] "u1" 2000).1 = none
    ∧ mapGet? (getToken [("u1", expiredRecordC5)] "u1" 2000).2 "u1" = none
    ∧ (getAllTokens (getToken [("u1", expiredRecordC5)] "u1" 2000).2
        3000).all (fun e => e.userId != "u1") = true :=
  C5_lazy_expiry_on_get [("u1", expiredRecordC5)] "u1" expiredRecordC5
    2000 3000 (by simp [keysOf]) (by decide) (by decide)

/-- C7: saving twice under the same user id leaves the store exactly as the
second save alone would have left it (full overwrite, no merge), with exactly
one record for that user id, and reading back gives the second record. -/
theorem C7_second_save_overwrites (store : TokenStore) (u : String)
    (d1 d2 : TokenDataInput) (t1 t2 : Int)
    (hnodup : (keysOf store).Nodup) :
    (saveToken (saveToken store u d1 t1).2 u d2 t2).2
      = (saveToken store u d2 t2).2
    ∧ countKey (saveToken (saveToken store u d1 t1).2 u d2 t2).2 u = 1
    ∧ mapGet? (saveToken (saveToken store u d1 t1).2 u d2 t2).2 u
      = some (saveToken store u d2 t2).1 := by
  have heq : (saveToken (saveToken store u d1 t1).2 u d2 t2).2
      = (saveToken store u d2 t2).2 := by
    show mapSet (mapSet store u (mkRecord d1 t1)) u (mkRecord d2 t2)
        = mapSet store u (mkRecord d2 t2)
    exact mapSet_mapSet_self store u (mkRecord d1 t1) (mkRecord d2 t2)
  refine ⟨heq, ?_, ?_⟩
  · rw [heq]
    exact countKey_mapSet_self store u (mkRecord d2 t2)
      (countKey_le_one_of_nodup store u hnodup)
  · rw [heq]
    exact mapGet_mapSet_self store u (mkRecord d2 t2)

/-- Second `saveToken` input used by the C7 witness. -/
def sampleInputC7 : TokenDataInput :=
  { accessToken := "B", tokenType := none
  , expiresIn := JVal.num 5184000, permissions := none
  , instagramUserId := "u1", instagramAccountId := none
  , instagramUsername := none, pageAccessToken := none }

/-- Witness for C7: two concrete saves for the same user on an empty store. -/
theorem C7_second_save_overwrites_witness :
    (saveToken (saveToken [] "u1" sampleInputC3 100).2 "u1" sampleInputC7
        200).2
      = (saveToken [] "u1" sampleInputC7 200).2
    ∧ countKey (saveToken (saveToken [] "u1" sampleInputC3 100).2 "u1"
        sampleInputC7 200).2 "u1" = 1
    ∧ mapGet? (saveToken (saveToken [] "u1" sampleInputC3 100).2 "u1"
        sampleInputC7 200).2 "u1"
      = some (saveToken [] "u1" sampleInputC7 200).1 :=
  C7_second_save_overwrites [] "u1" sampleInputC3 sampleInputC7 100 200
    (by simp [keysOf])

/-- C10: the 60-day default applies whenever `expiresIn` is not a JS number
(a numeric string, `null`, or an object included), not only when it is
missing or non-positive; equivalently, whenever the
`typeof expiresIn === 'number' && expiresIn > 0` guard is false. -/
theorem C10_default_on_non_number (store : TokenStore) (u : String)
    (d : TokenDataInput) (now : Int) :
    ((d.expiresIn = JVal.str "3600" ∨ d.expiresIn = JVal.jnull
        ∨ d.expiresIn = JVal.obj) →
      (saveToken store u d now).1.expiresAt
        = now + SIXTY_DAYS_SECONDS * 1000)
    ∧ (isPositiveNumber d.expiresIn = false →
      (saveToken store u d now).1.expiresAt
        = now + SIXTY_DAYS_SECONDS * 1000) := by
  constructor
  · rintro (h | h | h) <;>
      · show now + expiresInSecondsOf d.expiresIn * 1000
            = now + SIXTY_DAYS_SECONDS * 1000
        rw [h]
        simp [expiresInSecondsOf]
  · intro h
    show now + expiresInSecondsOf d.expiresIn * 1000
        = now + SIXTY_DAYS_SECONDS * 1000
    cases hv : d.expiresIn with
    | num n =>
      rw [hv] at h
      simp only [isPositiveNumber, decide_eq_false_iff_not] at h
      simp [expiresInSecondsOf, h]
    | undefined => simp [expiresInSecondsOf]
    | jnull => simp [expiresInSecondsOf]
    | str s => simp [expiresInSecondsOf]
    | obj => simp [expiresInSecondsOf]

/-- Input with a numeric string `"3600"` as `expiresIn`, used by the C10
witness. -/
def sampleInputC10 : TokenDataInput :=
  { accessToken := "A", tokenType := some "bearer"
  , expiresIn := JVal.str "3600", permissions := some []
  , instagramUserId := "u1", instagramAccountId := none
  , instagramUsername := none, pageAccessToken := none }

/-- Witness for C10: the numeric string `"3600"` gets the 60-day default. -/
theorem C10_default_on_non_number_witness :
    (saveToken [] "u1" sampleInputC10 500).1.expiresAt
      = 500 + SIXTY_DAYS_SECONDS * 1000 :=
  (C10_default_on_non_number [] "u1" sampleInputC10 500).1 (Or.inl rfl)

/- ---------------------------------------------------------------------------
Claim theorems: OAuth callback route
--------------------------------------------------------------------------- -/

/-- Concrete network environment used by callback witnesses: one managed page
with a linked business account. -/
def sampleEnv : Env :=
  { shortLived :=
      { access_token := "S", token_type := some "bearer"
      , expires_in := JVal.num 3600 }
  , longLived :=
      { access_token := "L", token_type := some "bearer"
      , expires_in := JVal.num 5184000 }
  , userInfo := { id := "fbuser", name := some "Name" }
  , pages :=
      [{ access_token := "pat1"
       , instagram_business_account := some { id := "ig1" } }]
  , igAccount := fun _ => { username := "handle" } }

/-- Callback query with the state parameter missing entirely. -/
def qMissingState : CallbackQuery :=
  { code := some "c1", state := none, error := none
  , error_reason := none, error_description := none }

/-- Callback query carrying a state value never issued. -/
def qUnknownState : CallbackQuery :=
  { code := some "c1", state := some "zz", error := none
  , error_reason := none, error_description := none }

/-- Counterexample to C2: a callback whose state token is missing from the
query is redirected with the message "Invalid callback parameters", not the
"Security validation failed" message that the unknown-state sub-case gets —
so the missing sub-case is distinguishable from the user-facing redirect. -/
theorem C2_counterexample_missing_state :
    (handleCallback qMissingState sampleEnv [] [] 1000).outcome
      = Outcome.errorRedirect "Invalid callback parameters"
    ∧ (handleCallback qUnknownState sampleEnv [] [] 1000).outcome
      = Outcome.errorRedirect "Security validation failed"
    ∧ Outcome.errorRedirect "Invalid callback parameters"
      ≠ Outcome.errorRedirect "Security validation failed" := by
  refine ⟨?_, ?_, ?_⟩ <;> decide

/-- C2 as amended: when the state token is present in the query but fails
CSRF validation (unknown, expired, or already consumed — exactly the cases
where `validateState` returns false), the user-facing outcome is always the
same generic "Security validation failed" redirect, so those sub-cases are
not distinguishable; a missing (or empty) state token is instead surfaced as
the distinct generic "Invalid callback parameters" redirect. -/
theorem C2_amended_csrf_generic_message (q : CallbackQuery) (env : Env)
    (ss : StateStore) (ts : TokenStore) (now : Int)
    (herr : truthy q.error = false) :
    (truthy q.code = true → truthy q.state = true →
      (validateState ss (q.state.getD "") now).1 = false →
      (handleCallback q env ss ts now).outcome
        = Outcome.errorRedirect "Security validation failed")
    ∧ (truthy q.state = false →
      (handleCallback q env ss ts now).outcome
        = Outcome.errorRedirect "Invalid callback parameters") := by
  constructor
  · intro hc hs hv
    unfold handleCallback
    simp [herr, hc, hs, hv]
  · intro hs
    unfold handleCallback
    simp [herr, hs]

/-- Witness for the amended C2: the unknown-state query gets the security
message, the missing-state query gets the parameter message. -/
theorem C2_amended_csrf_generic_message_witness :
    (handleCallback qUnknownState sampleEnv [] [] 1000).outcome
      = Outcome.errorRedirect "Security validation failed"
    ∧ (handleCallback qMissingState sampleEnv [] [] 1000).outcome
      = Outcome.errorRedirect "Invalid callback parameters" :=
  ⟨(C2_amended_csrf_generic_message qUnknownState sampleEnv [] [] 1000
      (by decide)).1 (by decide) (by decide) (by decide),
   (C2_amended_csrf_generic_message qMissingState sampleEnv [] [] 1000
      (by decide)).2 (by decide)⟩

/-- C6: the record the successful callback flow stores has
`instagramAccountId` (linked business account) and `pageAccessToken`
(delegated access token) either both present or both absent. The hypothesis
states that the upstream page list is well-formed: page access tokens and
linked account ids are nonempty opaque identifiers, as the external
interface provides them. -/
theorem C6_linked_fields_together (env : Env) (ts : TokenStore) (now : Int)
    (hwf : envWF env = true) :
    (completeFlow env ts now).2.1
      = mapSet ts env.userInfo.id (flowRecord env now)
    ∧ ((flowRecord env now).instagramAccountId = none
        ↔ (flowRecord env now).pageAccessToken = none) := by
  refine ⟨rfl, ?_⟩
  have hacc : (flowRecord env now).instagramAccountId
      = orNullStr ((flowInput env).instagramAccountId) := rfl
  have hpat : (flowRecord env now).pageAccessToken
      = orNullStr ((flowInput env).pageAccessToken) := rfl
  rw [hacc, hpat]
  cases hfl : findLinkedPage env.pages with
  | none => simp [flowInput, hfl, orNullStr]
  | some pba =>
    obtain ⟨p, ba⟩ := pba
    obtain ⟨hmem, hfield⟩ := findLinkedPage_spec env.pages p ba hfl
    have hp : pageWF p = true := by
      have hall := List.all_eq_true.mp hwf
      exact hall p hmem
    have h12 : p.access_token ≠ "" ∧ ba.id ≠ "" := by
      simp only [pageWF, hfield, Bool.and_eq_true, bne_iff_ne, ne_eq] at hp
      exact hp
    simp [flowInput, hfl, orNullStr, h12.1, h12.2]

/-- Witness for C6: the sample environment, whose single page carries both a
page access token and a linked business account id. -/
theorem C6_linked_fields_together_witness :
    (completeFlow sampleEnv [] 1000).2.1
      = mapSet [] sampleEnv.userInfo.id (flowRecord sampleEnv 1000)
    ∧ ((flowRecord sampleEnv 1000).instagramAccountId = none
        ↔ (flowRecord sampleEnv 1000).pageAccessToken = none) :=
  C6_linked_fields_together sampleEnv [] 1000 (by decide)

/-- C8: a callback whose state parameter is present but unknown to the
registry reaches the Failed outcome with the generic security message,
attempts no outbound network call, and leaves the token store (and the
registry) unchanged. -/
theorem C8_unknown_state_no_calls (q : CallbackQuery) (env : Env)
    (ss : StateStore) (ts : TokenStore) (now : Int) (s : String)
    (herr : truthy q.error = false) (hc : truthy q.code = true)
    (hs : q.state = some s) (hsne : s ≠ "")
    (hunknown : mapGet? ss s = none) :
    (handleCallback q env ss ts now).outcome
      = Outcome.errorRedirect "Security validation failed"
    ∧ (handleCallback q env ss ts now).calls = []
    ∧ (handleCallback q env ss ts now).tokenStore = ts
    ∧ (handleCallback q env ss ts now).stateStore = ss := by
  have hv : validateState ss s now = (false, ss) := by
    unfold validateState
    rw [if_neg hsne, hunknown]
  have hst : truthy (some s) = true := by
    simpa [truthy] using hsne
  unfold handleCallback
  simp [herr, hc, hst, hs, hv]

/-- Witness for C8: the unknown-state query against an empty registry and an
empty token store. -/
theorem C8_unknown_state_no_calls_witness :
    (handleCallback qUnknownState sampleEnv [] [] 1000).outcome
      = Outcome.errorRedirect "Security validation failed"
    ∧ (handleCallback qUnknownState sampleEnv [] [] 1000).calls = []
    ∧ (handleCallback qUnknownState sampleEnv [] [] 1000).tokenStore = []
    ∧ (handleCallback qUnknownState sampleEnv [] [] 1000).stateStore = [] :=
  C8_unknown_state_no_calls qUnknownState sampleEnv [] [] 1000 "zz"
    (by decide) (by decide) (by decide) (by decide) (by decide)

end IGAuth
